import Mathlib

set_option maxHeartbeats 1000000

/-
Shallow embedding of the synchronization core of `app.py` from the
notion-github-sync repository, together with theorems settling the
frozen claims about its specification.
-/

namespace NotionGithubSync

/- ===================== JSON-like values (Python dicts) ===================== -/

/-- JSON-like values as handled by the Python dictionaries in `app.py`
(`page["properties"]` and its nested property bags). Numbers do not occur
in the code paths modelled here. -/
inductive JVal where
  | null : JVal
  | boolean : Bool → JVal
  | str : String → JVal
  | arr : List JVal → JVal
  | obj : List (String × JVal) → JVal

/-- Python truthiness for the JSON-like values occurring in the code:
`None`, `False`, `""`, `[]` and `{}` are falsy. -/
def truthy : JVal → Bool
  | .null => false
  | .boolean b => b
  | .str s => s != ""
  | .arr l => !l.isEmpty
  | .obj l => !l.isEmpty

/-- `o.get(k, dflt)` on a Python value: returns the stored value (even when
that value is `None`) if the key is present, the default if the key is
absent, and raises (`AttributeError`, modelled as `.error`) when the
receiver is not a dict. -/
def jget (o : JVal) (k : String) (dflt : JVal) : Except Unit JVal :=
  match o with
  | .obj l =>
    match l.find? (fun p => p.1 == k) with
    | some p => Except.ok p.2
    | none => Except.ok dflt
  | _ => Except.error ()

/-- `"".join(seg.get("plain_text", "") for seg in segs)` over a list of
rich-text segments: raises when a segment is not a dict or a present
`plain_text` value is not a string. -/
def plainOfSegs : List JVal → Except Unit String
  | [] => Except.ok ""
  | seg :: rest => do
    let p ← jget seg "plain_text" (.str "")
    match p with
    | .str s => do
      let r ← plainOfSegs rest
      Except.ok (s ++ r)
    | _ => Except.error ()

/-- `_plain(rt)` from `app.py`: `"".join([... for seg in (rt or [])])`.
A falsy value (including `None`) is replaced by the empty list; a truthy
non-list receiver makes the iteration raise (strings iterate characters,
on which `.get` raises; dicts iterate keys, likewise). -/
def plainJ (rt : JVal) : Except Unit String :=
  if truthy rt then
    match rt with
    | .arr l => plainOfSegs l
    | _ => Except.error ()
  else Except.ok ""

/-- `_find_title_prop(props)` from `app.py`: first property key whose value
has `type == "title"`, defaulting to `"Name"`. Each visited value must be
a dict (`.get` on anything else raises). -/
def _find_title_prop : List (String × JVal) → Except Unit String
  | [] => Except.ok "Name"
  | (k, v) :: rest => do
    let t ← jget v "type" .null
    match t with
    | .str s => if s = "title" then Except.ok k else _find_title_prop rest
    | _ => _find_title_prop rest

/- ===================== Record field extraction ===================== -/

/-- The normalized record shape returned by `get_page_fields`. -/
structure PageData where
  page_id : String
  title : String
  status : Option String
  company : String
  customer_types : List String
  priority : Option String
  size : Option String
  in_sync : Bool
  details : String
  deriving DecidableEq

/-- Python truthiness of an optional string field of a `PageData`
(`None` and `""` are falsy). -/
def optTruthy : Option String → Bool
  | none => false
  | some s => s != ""

/-- The shared shape of the Status/Priority/Size extractions in
`get_page_fields`: `props[key].get("select", {}).get("name")` guarded only
by `if props.get(key):` — so a present key whose `select` value is null makes
the inner `.get("name")` raise. Non-string names are collapsed to `none`
(well-formed Notion responses carry strings). -/
def selectName (props : JVal) (key : String) : Except Unit (Option String) := do
  let v ← jget props key .null
  if truthy v then do
    let sel ← jget v "select" (.obj [])
    let nm ← jget sel "name" .null
    match nm with
    | .str s => Except.ok (some s)
    | _ => Except.ok none
  else Except.ok none

/-- `[o.get("name") for o in ... if o.get("name")]`: names of multi-select
options filtered by truthiness. -/
def multiSelectNames : List JVal → Except Unit (List String)
  | [] => Except.ok []
  | o :: rest => do
    let nm ← jget o "name" .null
    let tail ← multiSelectNames rest
    match nm with
    | .str s => if s != "" then Except.ok (s :: tail) else Except.ok tail
    | _ => Except.ok tail

/-- `get_page_fields` from `app.py` (lines 263-314), with the page retrieval
itself factored out: the argument is `page["properties"]`. `.error` models an
exception escaping to the caller. -/
def get_page_fields (page_id : String) (props : JVal) : Except Unit PageData := do
  let pl ← match props with
    | .obj l => Except.ok l
    | _ => Except.error ()
  let title_prop ← _find_title_prop pl
  let tval ← jget props title_prop (.obj [])
  let ttl ← jget tval "title" .null
  let title ← if truthy ttl then plainJ ttl else Except.ok "(no title)"
  let status ← selectName props "Status"
  let company ← do
    let cv ← jget props "Company" .null
    if truthy cv then do
      let rt ← jget cv "rich_text" (.arr [])
      plainJ rt
    else Except.ok ""
  let customer_types ← do
    let cv ← jget props "Customer Type" .null
    if truthy cv then do
      let ms ← jget cv "multi_select" (.arr [])
      match ms with
      | .arr l => multiSelectNames l
      | _ => Except.error ()
    else Except.ok []
  let priority ← selectName props "Priority"
  let size ← selectName props "Size"
  let in_sync ← do
    let v ← jget props "In Sync With Github" .null
    if truthy v then do
      let cb ← jget v "checkbox" (.boolean false)
      Except.ok (truthy cb)
    else Except.ok false
  let details_lines :=
    (if company != "" then ["**Company:** " ++ company] else []) ++
    (if !customer_types.isEmpty then
      ["**Customer Type:** " ++ String.intercalate ", " customer_types] else []) ++
    (if optTruthy priority then ["**Priority:** " ++ priority.getD ""] else []) ++
    (if optTruthy size then ["**Size:** " ++ size.getD ""] else [])
  let details := if details_lines.isEmpty then "" else String.intercalate "\n" details_lines
  Except.ok {
    page_id := page_id
    title := title
    status := status
    company := company
    customer_types := customer_types
    priority := priority
    size := size
    in_sync := in_sync
    details := details
  }

/- ===================== Eligibility validation ===================== -/

/-- `validate_page_data` from `app.py` (lines 316-340). -/
def validate_page_data (d : PageData) : Bool × String :=
  let missing :=
    (if d.title == "" || d.title == "(no title)" then ["title"] else []) ++
    (if !(optTruthy d.status) then ["status"] else [])
  let warnings :=
    (if !(optTruthy d.priority) then ["priority"] else []) ++
    (if !(optTruthy d.size) then ["size"] else [])
  if !missing.isEmpty then
    (false, "Missing required fields: " ++ String.intercalate ", " missing)
  else if !warnings.isEmpty then
    (true, "Warning: Missing optional fields: " ++ String.intercalate ", " warnings)
  else
    (true, "OK")

/- ===================== Block-to-markdown conversion ===================== -/

/-- Python `str.strip()` (drop leading and trailing whitespace), defined
structurally over the character list so concrete instances compute inside
proofs. -/
def stripStr (s : String) : String :=
  String.mk (((s.data.dropWhile Char.isWhitespace).reverse.dropWhile
    Char.isWhitespace).reverse)

/-- An inline rich-text run: only the plain text is used by the converter. -/
structure TextSeg where
  plain_text : String
  deriving DecidableEq

/-- A well-formed Notion content block as read by
`_convert_notion_to_markdown`: the `type` string plus the payload fields the
converter reads from `block[block_type]` (each with the code's `.get`
default when absent). `icon` is the resolved callout emoji
(`none` models an absent/emoji-less icon object, for which the code falls
back to the default emoji). -/
structure Block where
  type : String
  rich_text : List TextSeg := []
  checked : Bool := false
  language : String := ""
  icon : Option String := none
  file_url : Option String := none
  external_url : Option String := none
  caption : List TextSeg := []
  has_children : Bool := false
  deriving DecidableEq

/-- `_plain` on a typed rich-text list. -/
def _plain (rt : List TextSeg) : String :=
  String.join (rt.map (fun seg => seg.plain_text))

/-- `file_obj.get("url") or external_obj.get("url")` followed by the `if url:`
truthiness test: the first present non-empty URL, if any. -/
def firstUrl (f e : Option String) : Option String :=
  match f with
  | some s => if s != "" then some s else match e with
    | some t => if t != "" then some t else none
    | none => none
  | none => match e with
    | some t => if t != "" then some t else none
    | none => none

/-- The lines one block appends to `markdown_parts` in
`_convert_notion_to_markdown` (lines 103-237 of `app.py`). The
`has_children` branch appends nothing (children are deliberately skipped),
and unrecognized block types append nothing. -/
def partsOf (b : Block) : List String :=
  let text := _plain b.rich_text
  let cap := _plain b.caption
  if b.type = "paragraph" then
    if stripStr text != "" then [text, ""] else []
  else if b.type = "heading_1" then
    if stripStr text != "" then ["# " ++ text, ""] else []
  else if b.type = "heading_2" then
    if stripStr text != "" then ["## " ++ text, ""] else []
  else if b.type = "heading_3" then
    if stripStr text != "" then ["### " ++ text, ""] else []
  else if b.type = "bulleted_list_item" then
    if stripStr text != "" then ["- " ++ text] else []
  else if b.type = "numbered_list_item" then
    if stripStr text != "" then ["1. " ++ text] else []
  else if b.type = "to_do" then
    let checkbox := if b.checked then "- [x]" else "- [ ]"
    if stripStr text != "" then [checkbox ++ " " ++ text] else []
  else if b.type = "code" then
    if stripStr text != "" then ["```" ++ b.language, text, "```", ""] else []
  else if b.type = "quote" then
    if stripStr text != "" then ["> " ++ text, ""] else []
  else if b.type = "callout" then
    let icon := b.icon.getD "💡"
    if stripStr text != "" then ["> " ++ icon ++ " **" ++ text ++ "**", ""] else []
  else if b.type = "divider" then
    ["---", ""]
  else if b.type = "image" then
    (match firstUrl b.file_url b.external_url with
     | some url =>
       if cap != "" then ["![" ++ cap ++ "](" ++ url ++ ")"] else ["![Image](" ++ url ++ ")"]
     | none =>
       if cap != "" then ["![Image: " ++ cap ++ "]"] else ["![Image]"]) ++ [""]
  else if b.type = "file" then
    (match firstUrl b.file_url b.external_url with
     | some url =>
       if cap != "" then ["[📎 " ++ cap ++ "](" ++ url ++ ")"] else ["[📎 File](" ++ url ++ ")"]
     | none =>
       if cap != "" then ["📎 " ++ cap] else ["📎 File"]) ++ [""]
  else if b.type = "video" then
    (match firstUrl b.file_url b.external_url with
     | some url =>
       if cap != "" then ["[🎥 " ++ cap ++ "](" ++ url ++ ")"] else ["[🎥 Video](" ++ url ++ ")"]
     | none =>
       if cap != "" then ["🎥 " ++ cap] else ["🎥 Video"]) ++ [""]
  else []

/-- `_convert_notion_to_markdown` from `app.py` (lines 99-239): all blocks
append their lines into one list, which is joined with newlines and
stripped. -/
def _convert_notion_to_markdown (blocks : List Block) : String :=
  stripStr (String.intercalate "\n" (blocks.flatMap partsOf))

/-- `get_page_content` from `app.py` (lines 241-261), with the block fetch
factored out as its `Except` result: any exception from the fetch is caught
and replaced by the failure placeholder, so the function itself is total
(it never raises). -/
def get_page_content (fetch : Except Unit (List Block)) : String :=
  match fetch with
  | .error _ => "_(Failed to fetch page content)_"
  | .ok blocks =>
    if blocks.isEmpty then "_(No content found)_"
    else
      let markdown_content := _convert_notion_to_markdown blocks
      if stripStr markdown_content == "" then "_(No readable content found)_"
      else markdown_content

/- ===================== Idempotency store ===================== -/

/-- The `mapping` table of `sync.db`: association of a Notion page id
(the primary key) with a GitHub issue number. The `created_at` timestamp
carries no information used by the program and is not modelled. -/
def DB := List (String × Int)

/-- `already_synced` (lines 58-60): whether a mapping row exists for the id. -/
def already_synced (db : DB) (page_id : String) : Bool :=
  (List.find? (fun r => r.1 == page_id) db).isSome

/-- `record_mapping` (lines 62-68): `INSERT OR REPLACE` keyed on the page id. -/
def record_mapping (db : DB) (page_id : String) (issue_number : Int) : DB :=
  (page_id, issue_number) :: List.filter (fun r => r.1 != page_id) db

/- ===================== Labels, body, translation maps ===================== -/

/-- `_labels_for_issue` (lines 364-369). -/
def _labels_for_issue (customer_types : List String) (priority size : Option String) :
    List String :=
  customer_types ++
  (match priority with
   | some p => if p != "" then ["Priority:" ++ p] else []
   | none => []) ++
  (match size with
   | some s => if s != "" then ["Size:" ++ s] else []
   | none => [])

/-- The issue body composed in `process_validated_page` (lines 530-548):
`"\n".join(body_parts)`. -/
def compose_body (page_id content : String) : String :=
  String.intercalate "\n"
    ["Imported from Notion page `" ++ page_id ++ "`.",
     "",
     "---",
     "",
     content,
     "",
     "---",
     "",
     "> Created automatically when Notion Status moved to **Validated**."]

/-- `PRIORITY_MAP_NOTION_TO_GH` (lines 493-497). -/
def PRIORITY_MAP_NOTION_TO_GH : List (String × String) :=
  [("Large", "Extremo"), ("Medium", "Médio"), ("Low", "Baixa")]

/-- `SIZE_MAP_NOTION_TO_GH` (line 498): `{k: k for k in [...]}`. -/
def SIZE_MAP_NOTION_TO_GH : List (String × String) :=
  ["XS", "S", "M", "L", "XL"].map (fun k => (k, k))

/-- `PRIORITY_MAP_NOTION_TO_GH.get(p, p)` (line 599). -/
def priority_to_gh (p : String) : String :=
  (Option.map Prod.snd (List.find? (fun q => q.1 == p) PRIORITY_MAP_NOTION_TO_GH)).getD p

/-- `SIZE_MAP_NOTION_TO_GH.get(s, s)` (line 609). -/
def size_to_gh (s : String) : String :=
  (Option.map Prod.snd (List.find? (fun q => q.1 == s) SIZE_MAP_NOTION_TO_GH)).getD s

/- ===================== Project field-schema cache ===================== -/

/-- One option of a single-select project field (`options { id name }`). -/
structure OptionNode where
  id : String
  name : String
  deriving DecidableEq

/-- One field node of the schema-discovery query result: its GraphQL
`__typename`, `id`, `name`, and (for single-select fields) its options. -/
structure FieldNode where
  typename : String
  id : String
  name : String
  options : List OptionNode := []
  deriving DecidableEq

/-- `_PROJECT_FIELDS_CACHE` (line 442): per-project cached list of
single-select field nodes (the dict comprehension keyed by field name is
modelled by the node list plus last-wins lookup, which is observationally
the same mapping). -/
def Cache := List (String × List FieldNode)

/-- `_PROJECT_FIELDS_CACHE.get((project_id,))`. -/
def lookupCache (c : Cache) (project_id : String) : Option (List FieldNode) :=
  Option.map Prod.snd (List.find? (fun p => p.1 == project_id) c)

/-- `_PROJECT_FIELDS_CACHE[(project_id,)] = field_map` (dict assignment:
the new entry shadows any previous one). -/
def insertCache (c : Cache) (project_id : String) (fm : List FieldNode) : Cache :=
  (project_id, fm) :: c

/-- The filter building `field_map` (line 465): keep only
`ProjectV2SingleSelectField` nodes. -/
def singleSelectFields (nodes : List FieldNode) : List FieldNode :=
  nodes.filter (fun n => n.typename == "ProjectV2SingleSelectField")

/-- Error kinds of `get_project_field_and_option_ids`: the two
`HTTPException`s it raises itself and a GraphQL transport error escaping
from `gh_graphql`. -/
inductive ResolveErr where
  | gqlError : ResolveErr
  | fieldNotFound : ResolveErr
  | optionNotFound : ResolveErr
  deriving DecidableEq

/-- Field/option lookup of lines 468-474: `field_map.get(field_name)`
(last-wins, matching the dict comprehension) then the first option whose
name equals the label. -/
def lookupFieldOption (fm : List FieldNode) (field_name option_label : String) :
    Except ResolveErr (String × String) :=
  match List.find? (fun n => n.name == field_name) fm.reverse with
  | none => Except.error .fieldNotFound
  | some f =>
    match List.find? (fun o => o.name == option_label) f.options with
    | none => Except.error .optionNotFound
    | some opt => Except.ok (f.id, opt.id)

/-- The schema-discovery query as seen through `gh_graphql` (lines 383-395):
in dry-run mode `gh_graphql` returns `{"data": {}}`, from which the
node-extraction chain of line 464 yields the empty node list; otherwise the
transport either raises or delivers the field nodes. -/
def gh_graphql_fields (dry_run : Bool) (resp : Except Unit (List FieldNode)) :
    Except Unit (List FieldNode) :=
  if dry_run then Except.ok [] else resp

/-- Result of one `get_project_field_and_option_ids` call: the returned or
raised value, the cache afterwards, and whether a schema-discovery query
was issued. -/
structure ResolveOut where
  result : Except ResolveErr (String × String)
  cache : Cache
  queried : Bool

/-- `get_project_field_and_option_ids` (lines 444-474). The cached entry is
used only when it is truthy (`if not field_map:` treats a cached empty map
as a miss); on a miss one discovery query is issued and its single-select
nodes are cached, even when there are none. -/
def get_project_field_and_option_ids (dry_run : Bool)
    (resp : Except Unit (List FieldNode)) (cache : Cache)
    (project_id field_name option_label : String) : ResolveOut :=
  match lookupCache cache project_id with
  | some (f :: fs) =>
    ⟨lookupFieldOption (f :: fs) field_name option_label, cache, false⟩
  | _ =>
    match gh_graphql_fields dry_run resp with
    | .error _ => ⟨Except.error .gqlError, cache, true⟩
    | .ok nodes =>
      let fm := singleSelectFields nodes
      ⟨lookupFieldOption fm field_name option_label, insertCache cache project_id fm, true⟩

/- ===================== Orchestrator ===================== -/

/-- The fields of a created GitHub issue used by the pipeline (`number`,
`node_id`; the `html_url` is only printed). -/
structure Issue where
  number : Int
  node_id : Option String
  deriving DecidableEq

/-- The configuration surface read from the environment at startup. Absent
optional values are the empty string, as in `os.getenv(..., "")`. -/
structure Config where
  project_id : String
  create_draft : Bool
  dry_run : Bool
  status_field_id : String
  status_option_id : String
  deriving DecidableEq

/-- Responses of the external world consulted during one
`process_validated_page` run: `.error` models an exception raised by the
call. `createDraftResp` and `addIssueResp` are already parsed: the outer
`Except` is a `gh_graphql` failure (which propagates), the inner `Option`
the parse of the mutation payload (whose failure is caught and yields
`None`). The database is assumed reliable (`init_db` ran). -/
structure Ext where
  retrieve : Except Unit JVal
  blocks : Except Unit (List Block)
  createIssueResp : Except Unit Issue
  createDraftResp : Except Unit (Option String)
  addIssueResp : Except Unit (Option String)
  schemaResp : Except Unit (List FieldNode)

/-- Observable mutating actions of one run, in program order. An entry
records that the corresponding wrapper function was invoked (in dry-run
mode the wrapper logs instead of mutating, but the pipeline step still
happens). -/
inductive Effect where
  | createIssue (title body : String) (labels : List String) : Effect
  | createDraft (project title body : String) : Effect
  | recordMapping (page_id : String) (issue_number : Int) : Effect
  | markSynced (page_id : String) : Effect
  | setStatusBacklog (page_id : String) : Effect
  | addToProject (project node_id : String) : Effect
  | setProjectStatus (project item field option_id : String) : Effect
  | schemaQuery (project : String) : Effect
  | setSingleSelect (project item field option_id : String) : Effect
  deriving DecidableEq

/-- Whether an effect is the creation of a work item or draft item. -/
def Effect.isCreation : Effect → Bool
  | .createIssue _ _ _ => true
  | .createDraft _ _ _ => true
  | _ => false

/-- Whether an effect is a write of the idempotency mapping. -/
def Effect.isMapWrite : Effect → Bool
  | .recordMapping _ _ => true
  | _ => false

/-- Whether an effect belongs to the project-propagation step (step 4). -/
def Effect.isProjectStep : Effect → Bool
  | .addToProject _ _ => true
  | .setProjectStatus _ _ _ _ => true
  | .schemaQuery _ => true
  | .setSingleSelect _ _ _ _ => true
  | _ => false

/-- `create_github_issue` (lines 371-381): in dry-run mode it returns the
sentinel issue without any network call; otherwise the HTTP result. -/
def create_github_issue_m (dry_run : Bool) (resp : Except Unit Issue) : Except Unit Issue :=
  if dry_run then Except.ok ⟨-1, some "MDU6SXNzdWUx"⟩ else resp

/-- `create_draft_item_in_project` (lines 411-423): in dry-run mode
`gh_graphql` returns `{"data": {}}`, the payload parse fails and is caught,
yielding `None`. -/
def create_draft_item_m (dry_run : Bool) (resp : Except Unit (Option String)) :
    Except Unit (Option String) :=
  if dry_run then Except.ok none else resp

/-- `add_issue_to_project` (lines 397-409), same dry-run behaviour. -/
def add_issue_to_project_m (dry_run : Bool) (resp : Except Unit (Option String)) :
    Except Unit (Option String) :=
  if dry_run then Except.ok none else resp

/-- Step 4a (lines 579-582): ensure a project item id exists, adding the
issue to the project when an issue with a node id was created. Returns the
item id, the effects, and whether an uncaught `gh_graphql` exception
aborted the record (the add call is outside any inner try). -/
def ensure_item (c : Config) (ext : Ext) (issue : Option Issue)
    (item0 : Option String) : Option String × List Effect × Bool :=
  match item0 with
  | some i => (some i, [], false)
  | none =>
    match issue with
    | none => (none, [], false)
    | some iss =>
      match iss.node_id with
      | none => (none, [], false)
      | some nid =>
        match add_issue_to_project_m c.dry_run ext.addIssueResp with
        | .error _ => (none, [Effect.addToProject c.project_id nid], true)
        | .ok idOpt => (idOpt, [Effect.addToProject c.project_id nid], false)

/-- Step 4, Status via pre-known env ids (lines 585-595): attempted only
when an item id exists and both ids are configured; failures are caught by
the inner try. -/
def status_step (c : Config) (item1 : Option String) : List Effect :=
  match item1 with
  | some it =>
    if c.status_field_id != "" && c.status_option_id != "" then
      [Effect.setProjectStatus c.project_id it c.status_field_id c.status_option_id]
    else []
  | none => []

/-- The effects of one guarded single-select field set: the discovery query
when one was issued, then the field mutation when resolution succeeded. -/
def select_effects (project it : String) (r : ResolveOut) : List Effect :=
  (if r.queried then [Effect.schemaQuery project] else []) ++
  (match r.result with
   | .ok fo => [Effect.setSingleSelect project it fo.1 fo.2]
   | .error _ => [])

/-- Steps 4b/4c (lines 597-615): one guarded, individually-tried
single-select field set via schema-cache resolution. A resolution error or
mutation failure is caught and logged; the cache update survives. -/
def select_step (c : Config) (ext : Ext) (cache : Cache) (item1 : Option String)
    (field_name : String) (label : Option String) (translate : String → String) :
    List Effect × Cache :=
  match item1 with
  | none => ([], cache)
  | some it =>
    match label with
    | none => ([], cache)
    | some p =>
      if p != "" then
        (select_effects c.project_id it
           (get_project_field_and_option_ids c.dry_run ext.schemaResp cache
             c.project_id field_name (translate p)),
         (get_project_field_and_option_ids c.dry_run ext.schemaResp cache
           c.project_id field_name (translate p)).cache)
      else ([], cache)

/-- Step 4 (lines 577-615): project linking and field propagation. -/
def project_steps (c : Config) (ext : Ext) (cache : Cache) (data : PageData)
    (issue : Option Issue) (item0 : Option String) : List Effect × Cache :=
  if c.project_id != "" then
    if (ensure_item c ext issue item0).2.2 then
      ((ensure_item c ext issue item0).2.1, cache)
    else
      ((ensure_item c ext issue item0).2.1 ++
         status_step c (ensure_item c ext issue item0).1 ++
         (select_step c ext cache (ensure_item c ext issue item0).1
           "Priority" data.priority priority_to_gh).1 ++
         (select_step c ext
           (select_step c ext cache (ensure_item c ext issue item0).1
             "Priority" data.priority priority_to_gh).2
           (ensure_item c ext issue item0).1 "Size" data.size size_to_gh).1,
       (select_step c ext
         (select_step c ext cache (ensure_item c ext issue item0).1
           "Priority" data.priority priority_to_gh).2
         (ensure_item c ext issue item0).1 "Size" data.size size_to_gh).2)
  else ([], cache)

/-- The state and effect trace of one `process_validated_page` run. -/
structure OrchResult where
  db : DB
  cache : Cache
  trace : List Effect

/-- Step 2 (lines 567-570): record the idempotency mapping exactly when an
issue object exists and dry-run mode is off. Returns the database
afterwards and the effect list of this step. -/
def mapping_step (c : Config) (db : DB) (page_id : String) (issue : Option Issue) :
    DB × List Effect :=
  match issue with
  | some iss =>
    if !c.dry_run then
      (record_mapping db page_id iss.number, [Effect.recordMapping page_id iss.number])
    else (db, [])
  | none => (db, [])

/-- Steps 2-4 of `process_validated_page` (lines 567-615), entered right
after the creation branch: record the idempotency mapping when a real
(non-dry-run) issue was created, then the two best-effort Notion
write-backs, then the project steps. -/
def after_creation (c : Config) (ext : Ext) (db : DB) (cache : Cache)
    (page_id : String) (data : PageData) (issue : Option Issue)
    (item0 : Option String) : OrchResult :=
  ⟨(mapping_step c db page_id issue).1,
   (project_steps c ext cache data issue item0).2,
   (mapping_step c db page_id issue).2 ++
     [Effect.markSynced page_id, Effect.setStatusBacklog page_id] ++
     (project_steps c ext cache data issue item0).1⟩

/-- `process_validated_page` (lines 503-619). Uncaught exceptions land in
the top-level handler, which swallows them: the run then simply ends with
the effects performed so far. -/
def process_validated_page (c : Config) (ext : Ext) (db : DB) (cache : Cache)
    (page_id : String) : OrchResult :=
  match ext.retrieve with
  | .error _ => ⟨db, cache, []⟩
  | .ok props =>
    match get_page_fields page_id props with
    | .error _ => ⟨db, cache, []⟩
    | .ok data =>
      if !(validate_page_data data).1 then ⟨db, cache, []⟩
      else if data.status != some "Validated" then ⟨db, cache, []⟩
      else if already_synced db page_id then ⟨db, cache, []⟩
      else
        let content := get_page_content ext.blocks
        let body_text := compose_body page_id content
        let labels := _labels_for_issue data.customer_types data.priority data.size
        if c.create_draft && c.project_id != "" then
          match create_draft_item_m c.dry_run ext.createDraftResp with
          | .error _ => ⟨db, cache, [Effect.createDraft c.project_id data.title body_text]⟩
          | .ok item0 =>
            let r := after_creation c ext db cache page_id data none item0
            ⟨r.db, r.cache, Effect.createDraft c.project_id data.title body_text :: r.trace⟩
        else
          match create_github_issue_m c.dry_run ext.createIssueResp with
          | .error _ => ⟨db, cache, [Effect.createIssue data.title body_text labels]⟩
          | .ok iss =>
            let r := after_creation c ext db cache page_id data (some iss) none
            ⟨r.db, r.cache, Effect.createIssue data.title body_text labels :: r.trace⟩

/- ===================== Helper lemmas ===================== -/

theorem optTruthy_eq_false (o : Option String) :
    optTruthy o = false ↔ (o = none ∨ o = some "") := by
  cases o with
  | none => simp [optTruthy]
  | some s => simp [optTruthy]

theorem isProjectStep_kinds (e : Effect) (h : e.isProjectStep = true) :
    e.isCreation = false ∧ e.isMapWrite = false := by
  cases e <;> simp_all [Effect.isProjectStep, Effect.isCreation, Effect.isMapWrite]

theorem mapWrite_not_creation (e : Effect) (h : e.isMapWrite = true) :
    e.isCreation = false := by
  cases e <;> simp_all [Effect.isMapWrite, Effect.isCreation]

theorem select_effects_only_project (project it : String) (r : ResolveOut) :
    ∀ e ∈ select_effects project it r, e.isProjectStep = true := by
  intro e he
  unfold select_effects at he
  rcases List.mem_append.mp he with h | h
  · split at h <;> simp_all [Effect.isProjectStep]
  · split at h <;> simp_all [Effect.isProjectStep]

theorem select_step_only_project (c : Config) (ext : Ext) (cache : Cache)
    (item1 : Option String) (fn : String) (lab : Option String) (tr : String → String) :
    ∀ e ∈ (select_step c ext cache item1 fn lab tr).1, e.isProjectStep = true := by
  intro e he
  rcases item1 with _ | it
  · simp [select_step] at he
  · rcases lab with _ | p
    · simp [select_step] at he
    · by_cases hp : (p != "") = true
      · simp only [select_step, hp, if_true] at he
        exact select_effects_only_project c.project_id it _ e he
      · simp only [select_step, hp, if_false] at he
        simp at he

theorem status_step_only_project (c : Config) (item1 : Option String) :
    ∀ e ∈ status_step c item1, e.isProjectStep = true := by
  intro e he
  rcases item1 with _ | it
  · simp [status_step] at he
  · unfold status_step at he
    split at he <;> simp_all [Effect.isProjectStep]

theorem ensure_item_only_project (c : Config) (ext : Ext) (issue : Option Issue)
    (item0 : Option String) :
    ∀ e ∈ (ensure_item c ext issue item0).2.1, e.isProjectStep = true := by
  intro e he
  rcases item0 with _ | i
  · rcases issue with _ | iss
    · simp [ensure_item] at he
    · rcases h : iss.node_id with _ | nid
      · simp [ensure_item, h] at he
      · rcases ha : add_issue_to_project_m c.dry_run ext.addIssueResp with u | idOpt
        · simp [ensure_item, h, ha] at he
          subst he; rfl
        · simp [ensure_item, h, ha] at he
          subst he; rfl
  · simp [ensure_item] at he

theorem project_steps_only_project (c : Config) (ext : Ext) (cache : Cache)
    (data : PageData) (issue : Option Issue) (item0 : Option String) :
    ∀ e ∈ (project_steps c ext cache data issue item0).1, e.isProjectStep = true := by
  intro e he
  unfold project_steps at he
  split at he
  · split at he
    · exact ensure_item_only_project c ext issue item0 e he
    · simp only [List.append_assoc, List.mem_append] at he
      rcases he with h | h | h | h
      · exact ensure_item_only_project c ext issue item0 e h
      · exact status_step_only_project c _ e h
      · exact select_step_only_project c ext _ _ _ _ _ e h
      · exact select_step_only_project c ext _ _ _ _ _ e h
  · simp at he

theorem mapping_step_only_map (c : Config) (db : DB) (page_id : String)
    (issue : Option Issue) :
    ∀ e ∈ (mapping_step c db page_id issue).2, e.isMapWrite = true := by
  intro e he
  rcases issue with _ | iss
  · simp [mapping_step] at he
  · cases hd : c.dry_run
    · simp [mapping_step, hd] at he
      subst he; rfl
    · simp [mapping_step, hd] at he

theorem after_creation_no_creation (c : Config) (ext : Ext) (db : DB) (cache : Cache)
    (page_id : String) (data : PageData) (issue : Option Issue) (item0 : Option String) :
    ∀ e ∈ (after_creation c ext db cache page_id data issue item0).trace,
      e.isCreation = false := by
  intro e he
  unfold after_creation at he
  simp only [List.append_assoc, List.mem_append, List.mem_cons,
    List.not_mem_nil, or_false] at he
  rcases he with h | (h | h) | h
  · exact mapWrite_not_creation e (mapping_step_only_map c db page_id issue e h)
  · subst h; rfl
  · subst h; rfl
  · exact (isProjectStep_kinds e (project_steps_only_project c ext cache data issue item0 e h)).1

theorem project_steps_no_map (c : Config) (ext : Ext) (cache : Cache)
    (data : PageData) (issue : Option Issue) (item0 : Option String) :
    ∀ e ∈ (project_steps c ext cache data issue item0).1, e.isMapWrite = false := by
  intro e he
  exact (isProjectStep_kinds e (project_steps_only_project c ext cache data issue item0 e he)).2

/- ===================== Concrete fixtures ===================== -/

/-- A well-formed property bag of a validated page. -/
def propsValidated : JVal := .obj [
  ("Name", .obj [("type", .str "title"),
    ("title", .arr [.obj [("plain_text", .str "Fix login bug")]])]),
  ("Status", .obj [("type", .str "select"),
    ("select", .obj [("name", .str "Validated")])])]

/-- The record extracted from `propsValidated`. -/
def dataValidated : PageData :=
  ⟨"p1", "Fix login bug", some "Validated", "", [], none, none, false, ""⟩

/-- A property bag with a title and a Status property whose `select` value
is null. -/
def propsStatusNull : JVal := .obj [
  ("Name", .obj [("type", .str "title"),
    ("title", .arr [.obj [("plain_text", .str "X")]])]),
  ("Status", .obj [("select", .null)])]

/-- Same shape with a null Priority select. -/
def propsPriorityNull : JVal := .obj [
  ("Name", .obj [("type", .str "title"),
    ("title", .arr [.obj [("plain_text", .str "X")]])]),
  ("Priority", .obj [("select", .null)])]

/-- Same shape with a null Size select. -/
def propsSizeNull : JVal := .obj [
  ("Name", .obj [("type", .str "title"),
    ("title", .arr [.obj [("plain_text", .str "X")]])]),
  ("Size", .obj [("select", .null)])]

/-- A property bag with only the title property. -/
def propsTitleOnly : JVal := .obj [
  ("Name", .obj [("type", .str "title"),
    ("title", .arr [.obj [("plain_text", .str "X")]])])]

/-- A run in which every external call would fail. -/
def extBlank : Ext :=
  ⟨Except.error (), Except.error (), Except.error (), Except.error (),
   Except.error (), Except.error ()⟩

/-- A run against `propsValidated` whose issue creation succeeds; content
fetch fails (exercising the placeholder path). -/
def extIssueOk : Ext :=
  ⟨Except.ok propsValidated, Except.error (), Except.ok ⟨7, some "N1"⟩,
   Except.ok none, Except.ok none, Except.ok []⟩

/-- Minimal configuration: no project, no draft flag, no dry-run. -/
def cfgPlain : Config := ⟨"", false, false, "", ""⟩

/- ===================== C9 ===================== -/

/-- C9: the extractor's graceful degradation covers only an absent parent
property: a property bag whose Status (resp. Priority, Size) key is present
with a null `select` value makes `get_page_fields` raise, because the
null-check guards only the property container; with the key absent the
extraction yields the default `none`. -/
theorem c9_null_select_raises :
    get_page_fields "p1" propsStatusNull = Except.error () ∧
    get_page_fields "p1" propsPriorityNull = Except.error () ∧
    get_page_fields "p1" propsSizeNull = Except.error () ∧
    get_page_fields "p1" propsTitleOnly =
      Except.ok ⟨"p1", "X", none, "", [], none, none, false, ""⟩ :=
  ⟨rfl, rfl, rfl, rfl⟩

/- ===================== C8 ===================== -/

/-- C8 counterexample: the priority translation table does not map exactly
one internal label to a differently-spelled remote label — all three of its
internal labels are translated to differently-spelled remote labels. -/
theorem c8_counterexample :
    priority_to_gh "Large" ≠ "Large" ∧ priority_to_gh "Medium" ≠ "Medium" ∧
    priority_to_gh "Low" ≠ "Low" := by
  refine ⟨?_, ?_, ?_⟩ <;> decide

/-- C8 (amended): the priority translation table maps each of its three
internal labels (Large, Medium, Low) to a differently-spelled remote label
(Extremo, Médio, Baixa), and every label outside the table passes through
unchanged. -/
theorem c8_priority_translation :
    priority_to_gh "Large" = "Extremo" ∧ priority_to_gh "Medium" = "Médio" ∧
    priority_to_gh "Low" = "Baixa" ∧
    ∀ p : String, p ∉ ["Large", "Medium", "Low"] → priority_to_gh p = p := by
  refine ⟨rfl, rfl, rfl, ?_⟩
  intro p hp
  simp only [List.mem_cons, List.not_mem_nil, or_false] at hp
  push_neg at hp
  have hfind : List.find? (fun q => q.1 == p) PRIORITY_MAP_NOTION_TO_GH = none := by
    rw [List.find?_eq_none]
    intro x hx
    simp only [PRIORITY_MAP_NOTION_TO_GH, List.mem_cons, List.not_mem_nil, or_false] at hx
    rcases hx with h | h | h <;> subst h <;> simp only [beq_iff_eq]
    · exact fun he => hp.1 he.symm
    · exact fun he => hp.2.1 he.symm
    · exact fun he => hp.2.2 he.symm
  simp [priority_to_gh, hfind]

/-- Witness for C8: a label outside the table is passed through unchanged. -/
theorem c8_witness : priority_to_gh "Urgent" = "Urgent" :=
  c8_priority_translation.2.2.2 "Urgent" (by decide)

/- ===================== C7 ===================== -/

/-- C7: `get_page_content` is total (modelling that it never raises) and
never returns the empty string: a fetch failure yields the fixed failure
placeholder, an empty block list yields the fixed no-content placeholder,
and a conversion that strips to nothing yields the fixed no-readable-content
placeholder. -/
theorem c7_get_page_content_never_empty (fetch : Except Unit (List Block)) :
    get_page_content fetch ≠ "" ∧
    (fetch = Except.error () → get_page_content fetch = "_(Failed to fetch page content)_") ∧
    (fetch = Except.ok [] → get_page_content fetch = "_(No content found)_") ∧
    (∀ blocks : List Block, fetch = Except.ok blocks → blocks ≠ [] →
      stripStr (_convert_notion_to_markdown blocks) = "" →
      get_page_content fetch = "_(No readable content found)_") := by
  cases fetch with
  | error u =>
    cases u
    refine ⟨by decide, ?_, ?_, ?_⟩
    · intro _; rfl
    · intro h; simp at h
    · intro bl h; simp at h
  | ok blocks =>
    by_cases hb : blocks.isEmpty
    · have hbe : blocks = [] := by simpa [List.isEmpty_iff] using hb
      subst hbe
      refine ⟨by decide, ?_, ?_, ?_⟩
      · intro h; simp at h
      · intro _; rfl
      · intro bl h hne _
        injection h with h2
        exact absurd h2.symm hne
    · have hb1 : blocks.isEmpty = false := by simpa using hb
      by_cases ht : stripStr (_convert_notion_to_markdown blocks) = ""
      · have hres : get_page_content (Except.ok blocks) = "_(No readable content found)_" := by
          simp [get_page_content, hb1, ht]
        refine ⟨by rw [hres]; decide, ?_, ?_, ?_⟩
        · intro h; simp at h
        · intro h
          injection h with h2
          rw [h2] at hb1
          simp at hb1
        · intro bl h hne htr
          exact hres
      · have hres : get_page_content (Except.ok blocks) = _convert_notion_to_markdown blocks := by
          simp [get_page_content, hb1, ht]
        refine ⟨?_, ?_, ?_, ?_⟩
        · rw [hres]
          intro h0
          apply ht
          rw [h0]
          rfl
        · intro h; simp at h
        · intro h
          injection h with h2
          rw [h2] at hb1
          simp at hb1
        · intro bl h hne htr
          injection h with h2
          subst h2
          exact absurd htr ht

/-- Witness for C7: an empty fetched block list yields the no-content
placeholder, which is non-empty. -/
theorem c7_witness :
    get_page_content (Except.ok []) = "_(No content found)_" ∧
    get_page_content (Except.ok ([] : List Block)) ≠ "" :=
  ⟨(c7_get_page_content_never_empty (Except.ok [])).2.2.1 rfl,
   (c7_get_page_content_never_empty (Except.ok [])).1⟩

/- ===================== C6 ===================== -/

theorem partsOf_eq_nil (b : Block)
    (htext : stripStr (_plain b.rich_text) = "")
    (htype : b.type ∉ ["divider", "image", "file", "video"]) :
    partsOf b = [] := by
  simp only [List.mem_cons, List.not_mem_nil, or_false, not_or] at htype
  obtain ⟨h1, h2, h3, h4⟩ := htype
  have hguard : (stripStr (_plain b.rich_text) != "") = false := by
    rw [htext]; rfl
  simp only [partsOf, hguard]
  simp [h1, h2, h3, h4]

/-- C6 counterexample: a single divider block has no rich-text runs at all
(vacuously, only whitespace ones), yet the converter emits a horizontal
rule, not the empty string. -/
theorem c6_counterexample :
    ({ type := "divider" } : Block).rich_text = [] ∧
    _convert_notion_to_markdown [{ type := "divider" }] = "---" := by
  exact ⟨rfl, by decide⟩

/-- C6 (amended): for every block sequence in which each block's rich-text
runs contain only whitespace (or are empty) and no block is of the divider,
image, file or video kinds — which emit output independent of rich text —
the converter returns the empty string. -/
theorem c6_blank_blocks_empty (blocks : List Block)
    (h : ∀ b ∈ blocks, stripStr (_plain b.rich_text) = "" ∧
      b.type ∉ ["divider", "image", "file", "video"]) :
    _convert_notion_to_markdown blocks = "" := by
  have hfm : blocks.flatMap partsOf = [] := by
    induction blocks with
    | nil => rfl
    | cons b bs ih =>
      have hb := h b (List.mem_cons_self b bs)
      have hbs := fun x hx => h x (List.mem_cons_of_mem b hx)
      simp [partsOf_eq_nil b hb.1 hb.2, ih hbs]
  unfold _convert_notion_to_markdown
  rw [hfm]
  rfl

/-- Witness for C6 (amended): whitespace-only paragraph, heading and to-do
blocks produce the empty string. -/
theorem c6_witness :
    _convert_notion_to_markdown
      [{ type := "paragraph", rich_text := [⟨"   "⟩] },
       { type := "heading_1" },
       { type := "to_do", rich_text := [⟨" "⟩, ⟨""⟩], checked := true }] = "" :=
  c6_blank_blocks_empty _ (by decide)

/- ===================== C5 ===================== -/

theorem optTruthy_eq_true (o : Option String) :
    optTruthy o = true ↔ ¬(o = none ∨ o = some "") := by
  rw [← optTruthy_eq_false o]
  cases optTruthy o <;> simp

/-- C5: the validator returns exactly one of the three shapes: ineligible
with a combined "Missing required fields" message naming every missing
required field (title before status), eligible with an optional-fields
warning, or eligible with "OK"; it is ineligible exactly when title or
status is missing, so absent priority or size alone never blocks; and when
both required fields are present the result is the warning shape naming
exactly the absent optional fields (priority before size), or "OK" when
priority and size are both present. -/
theorem c5_validator_shapes (d : PageData) :
    (((validate_page_data d).1 = false ∧
       ((validate_page_data d).2 = "Missing required fields: title" ∨
        (validate_page_data d).2 = "Missing required fields: status" ∨
        (validate_page_data d).2 = "Missing required fields: title, status")) ∨
     ((validate_page_data d).1 = true ∧
       ((validate_page_data d).2 = "Warning: Missing optional fields: priority" ∨
        (validate_page_data d).2 = "Warning: Missing optional fields: size" ∨
        (validate_page_data d).2 = "Warning: Missing optional fields: priority, size")) ∨
     ((validate_page_data d).1 = true ∧ (validate_page_data d).2 = "OK")) ∧
    ((validate_page_data d).1 = false ↔
      (d.title = "" ∨ d.title = "(no title)" ∨ d.status = none ∨ d.status = some "")) ∧
    ((d.title = "" ∨ d.title = "(no title)") → (d.status = none ∨ d.status = some "") →
      (validate_page_data d).2 = "Missing required fields: title, status") ∧
    ((d.title = "" ∨ d.title = "(no title)") → ¬(d.status = none ∨ d.status = some "") →
      (validate_page_data d).2 = "Missing required fields: title") ∧
    (¬(d.title = "" ∨ d.title = "(no title)") → (d.status = none ∨ d.status = some "") →
      (validate_page_data d).2 = "Missing required fields: status") ∧
    (¬(d.title = "" ∨ d.title = "(no title)") → ¬(d.status = none ∨ d.status = some "") →
      (d.priority = none ∨ d.priority = some "") → (d.size = none ∨ d.size = some "") →
      validate_page_data d = (true, "Warning: Missing optional fields: priority, size")) ∧
    (¬(d.title = "" ∨ d.title = "(no title)") → ¬(d.status = none ∨ d.status = some "") →
      (d.priority = none ∨ d.priority = some "") → ¬(d.size = none ∨ d.size = some "") →
      validate_page_data d = (true, "Warning: Missing optional fields: priority")) ∧
    (¬(d.title = "" ∨ d.title = "(no title)") → ¬(d.status = none ∨ d.status = some "") →
      ¬(d.priority = none ∨ d.priority = some "") → (d.size = none ∨ d.size = some "") →
      validate_page_data d = (true, "Warning: Missing optional fields: size")) ∧
    (¬(d.title = "" ∨ d.title = "(no title)") → ¬(d.status = none ∨ d.status = some "") →
      ¬(d.priority = none ∨ d.priority = some "") → ¬(d.size = none ∨ d.size = some "") →
      validate_page_data d = (true, "OK")) := by
  by_cases t : d.title = "" ∨ d.title = "(no title)"
  · have ht : (d.title == "" || d.title == "(no title)") = true := by
      rcases t with h | h <;> simp [h]
    by_cases s : d.status = none ∨ d.status = some ""
    · have hs : optTruthy d.status = false := (optTruthy_eq_false _).mpr s
      have hv : validate_page_data d = (false, "Missing required fields: title, status") := by
        unfold validate_page_data
        rw [ht, hs]
        simp
        all_goals decide
      refine ⟨Or.inl ⟨by rw [hv], Or.inr (Or.inr (by rw [hv]))⟩, ?_, ?_, ?_, ?_,
        ?_, ?_, ?_, ?_⟩
      · rw [hv]
        exact ⟨fun _ => t.elim Or.inl (fun h => Or.inr (Or.inl h)), fun _ => rfl⟩
      · exact fun _ _ => by rw [hv]
      · exact fun _ hns => absurd s hns
      · exact fun hnt _ => absurd t hnt
      · exact fun hnt => absurd t hnt
      · exact fun hnt => absurd t hnt
      · exact fun hnt => absurd t hnt
      · exact fun hnt => absurd t hnt
    · have hs : optTruthy d.status = true := (optTruthy_eq_true _).mpr s
      have hv : validate_page_data d = (false, "Missing required fields: title") := by
        unfold validate_page_data
        rw [ht, hs]
        simp
        all_goals decide
      refine ⟨Or.inl ⟨by rw [hv], Or.inl (by rw [hv])⟩, ?_, ?_, ?_, ?_,
        ?_, ?_, ?_, ?_⟩
      · rw [hv]
        exact ⟨fun _ => t.elim Or.inl (fun h => Or.inr (Or.inl h)), fun _ => rfl⟩
      · exact fun _ hs2 => absurd hs2 s
      · exact fun _ _ => by rw [hv]
      · exact fun hnt _ => absurd t hnt
      · exact fun hnt => absurd t hnt
      · exact fun hnt => absurd t hnt
      · exact fun hnt => absurd t hnt
      · exact fun hnt => absurd t hnt
  · have ht : (d.title == "" || d.title == "(no title)") = false := by
      obtain ⟨h1, h2⟩ := not_or.mp t
      simp [h1, h2]
    by_cases s : d.status = none ∨ d.status = some ""
    · have hs : optTruthy d.status = false := (optTruthy_eq_false _).mpr s
      have hv : validate_page_data d = (false, "Missing required fields: status") := by
        unfold validate_page_data
        rw [ht, hs]
        simp
        all_goals decide
      refine ⟨Or.inl ⟨by rw [hv], Or.inr (Or.inl (by rw [hv]))⟩, ?_, ?_, ?_, ?_,
        ?_, ?_, ?_, ?_⟩
      · rw [hv]
        exact ⟨fun _ => Or.inr (Or.inr s), fun _ => rfl⟩
      · exact fun ht2 _ => absurd ht2 t
      · exact fun ht2 _ => absurd ht2 t
      · exact fun _ _ => by rw [hv]
      · exact fun _ hns => absurd s hns
      · exact fun _ hns => absurd s hns
      · exact fun _ hns => absurd s hns
      · exact fun _ hns => absurd s hns
    · have hs : optTruthy d.status = true := (optTruthy_eq_true _).mpr s
      have hnone : ¬(d.title = "" ∨ d.title = "(no title)" ∨ d.status = none ∨
          d.status = some "") := by
        intro h
        rcases h with h | h | h | h
        · exact t (Or.inl h)
        · exact t (Or.inr h)
        · exact s (Or.inl h)
        · exact s (Or.inr h)
      cases hp : optTruthy d.priority <;> cases hq : optTruthy d.size
      · have hv : validate_page_data d =
            (true, "Warning: Missing optional fields: priority, size") := by
          unfold validate_page_data
          rw [ht, hs, hp, hq]
          simp
          all_goals decide
        refine ⟨Or.inr (Or.inl ⟨by rw [hv], Or.inr (Or.inr (by rw [hv]))⟩), ?_, ?_, ?_, ?_,
          ?_, ?_, ?_, ?_⟩
        · rw [hv]
          exact ⟨fun h => absurd h (by simp), fun h => absurd h hnone⟩
        · exact fun ht2 _ => absurd ht2 t
        · exact fun ht2 _ => absurd ht2 t
        · exact fun _ hs2 => absurd hs2 s
        · exact fun _ _ _ _ => hv
        · exact fun _ _ _ hnz => absurd ((optTruthy_eq_false _).mp hq) hnz
        · exact fun _ _ hnp _ => absurd ((optTruthy_eq_false _).mp hp) hnp
        · exact fun _ _ hnp _ => absurd ((optTruthy_eq_false _).mp hp) hnp
      · have hv : validate_page_data d =
            (true, "Warning: Missing optional fields: priority") := by
          unfold validate_page_data
          rw [ht, hs, hp, hq]
          simp
          all_goals decide
        refine ⟨Or.inr (Or.inl ⟨by rw [hv], Or.inl (by rw [hv])⟩), ?_, ?_, ?_, ?_,
          ?_, ?_, ?_, ?_⟩
        · rw [hv]
          exact ⟨fun h => absurd h (by simp), fun h => absurd h hnone⟩
        · exact fun ht2 _ => absurd ht2 t
        · exact fun ht2 _ => absurd ht2 t
        · exact fun _ hs2 => absurd hs2 s
        · exact fun _ _ _ hz => absurd hz ((optTruthy_eq_true _).mp hq)
        · exact fun _ _ _ _ => hv
        · exact fun _ _ hnp _ => absurd ((optTruthy_eq_false _).mp hp) hnp
        · exact fun _ _ hnp _ => absurd ((optTruthy_eq_false _).mp hp) hnp
      · have hv : validate_page_data d =
            (true, "Warning: Missing optional fields: size") := by
          unfold validate_page_data
          rw [ht, hs, hp, hq]
          simp
          all_goals decide
        refine ⟨Or.inr (Or.inl ⟨by rw [hv], Or.inr (Or.inl (by rw [hv]))⟩), ?_, ?_, ?_, ?_,
          ?_, ?_, ?_, ?_⟩
        · rw [hv]
          exact ⟨fun h => absurd h (by simp), fun h => absurd h hnone⟩
        · exact fun ht2 _ => absurd ht2 t
        · exact fun ht2 _ => absurd ht2 t
        · exact fun _ hs2 => absurd hs2 s
        · exact fun _ _ hpm _ => absurd hpm ((optTruthy_eq_true _).mp hp)
        · exact fun _ _ hpm _ => absurd hpm ((optTruthy_eq_true _).mp hp)
        · exact fun _ _ _ _ => hv
        · exact fun _ _ _ hnz => absurd ((optTruthy_eq_false _).mp hq) hnz
      · have hv : validate_page_data d = (true, "OK") := by
          unfold validate_page_data
          rw [ht, hs, hp, hq]
          simp
        refine ⟨Or.inr (Or.inr ⟨by rw [hv], by rw [hv]⟩), ?_, ?_, ?_, ?_,
          ?_, ?_, ?_, ?_⟩
        · rw [hv]
          exact ⟨fun h => absurd h (by simp), fun h => absurd h hnone⟩
        · exact fun ht2 _ => absurd ht2 t
        · exact fun ht2 _ => absurd ht2 t
        · exact fun _ hs2 => absurd hs2 s
        · exact fun _ _ hpm _ => absurd hpm ((optTruthy_eq_true _).mp hp)
        · exact fun _ _ hpm _ => absurd hpm ((optTruthy_eq_true _).mp hp)
        · exact fun _ _ _ hz => absurd hz ((optTruthy_eq_true _).mp hq)
        · exact fun _ _ _ _ => hv

/-- Witness for C5: a record with blank title and absent status is rejected
with both required fields named, title first; a record with title and
status but no priority or size is eligible with the combined warning; a
fully populated record is eligible with "OK". -/
theorem c5_witness :
    ((validate_page_data ⟨"p", "", none, "", [], none, none, false, ""⟩).1 = false ∧
     (validate_page_data ⟨"p", "", none, "", [], none, none, false, ""⟩).2 =
       "Missing required fields: title, status") ∧
    validate_page_data ⟨"p", "T", some "Validated", "", [], none, none, false, ""⟩ =
      (true, "Warning: Missing optional fields: priority, size") ∧
    validate_page_data
        ⟨"p", "T", some "Validated", "", [], some "High", some "M", false, ""⟩ =
      (true, "OK") :=
  ⟨⟨((c5_validator_shapes _).2.1).mpr (Or.inl rfl),
    (c5_validator_shapes _).2.2.1 (Or.inl rfl) (Or.inl rfl)⟩,
   (c5_validator_shapes _).2.2.2.2.2.1 (by decide) (by decide)
     (Or.inl rfl) (Or.inl rfl),
   (c5_validator_shapes _).2.2.2.2.2.2.2.2 (by decide) (by decide)
     (by decide) (by decide)⟩

/- ===================== C10 ===================== -/

/-- C10: an empty schema-discovery result is not effectively cached: in
dry-run mode the resolve call behaves exactly as a discovery returning no
fields, and whenever discovery yields zero single-select fields the empty
map is cached but treated as a miss by the truthiness check, so the next
resolve call for the same project issues another discovery query. -/
theorem c10_empty_schema_requeried :
    (∀ (resp : Except Unit (List FieldNode)) (cache : Cache) (p f o : String),
       get_project_field_and_option_ids true resp cache p f o =
       get_project_field_and_option_ids false (Except.ok []) cache p f o) ∧
    (∀ (nodes : List FieldNode) (cache : Cache) (p f1 o1 f2 o2 : String),
       lookupCache cache p = none → singleSelectFields nodes = [] →
       (get_project_field_and_option_ids false (Except.ok nodes) cache p f1 o1).queried
           = true ∧
       (get_project_field_and_option_ids false (Except.ok nodes) cache p f1 o1).result
           = Except.error .fieldNotFound ∧
       lookupCache
           (get_project_field_and_option_ids false (Except.ok nodes) cache p f1 o1).cache p
           = some [] ∧
       (get_project_field_and_option_ids false (Except.ok nodes)
           (get_project_field_and_option_ids false (Except.ok nodes) cache p f1 o1).cache
           p f2 o2).queried = true) := by
  constructor
  · intro resp cache p f o
    unfold get_project_field_and_option_ids
    cases h : lookupCache cache p with
    | none => simp [gh_graphql_fields]
    | some fm => cases fm <;> simp [gh_graphql_fields]
  · intro nodes cache p f1 o1 f2 o2 hmiss hempty
    have h1 : get_project_field_and_option_ids false (Except.ok nodes) cache p f1 o1 =
        ⟨Except.error .fieldNotFound, insertCache cache p [], true⟩ := by
      unfold get_project_field_and_option_ids
      rw [hmiss]
      simp [gh_graphql_fields, hempty, lookupFieldOption]
    rw [h1]
    have h2 : lookupCache (insertCache cache p []) p = some [] := by
      simp [lookupCache, insertCache]
    refine ⟨rfl, rfl, h2, ?_⟩
    unfold get_project_field_and_option_ids
    rw [h2]
    simp [gh_graphql_fields]

/-- Witness for C10: from an empty cache and a discovery returning no
fields, two consecutive resolve calls both issue a discovery query. -/
theorem c10_witness :
    (get_project_field_and_option_ids false (Except.ok []) [] "PVT_1" "Priority" "Alta").queried
        = true ∧
    (get_project_field_and_option_ids false (Except.ok []) [] "PVT_1" "Priority" "Alta").result
        = Except.error .fieldNotFound ∧
    lookupCache
        (get_project_field_and_option_ids false (Except.ok []) [] "PVT_1" "Priority" "Alta").cache
        "PVT_1" = some [] ∧
    (get_project_field_and_option_ids false (Except.ok [])
        (get_project_field_and_option_ids false (Except.ok []) [] "PVT_1" "Priority" "Alta").cache
        "PVT_1" "Size" "M").queried = true :=
  c10_empty_schema_requeried.2 [] [] "PVT_1" "Priority" "Alta" "Size" "M" rfl rfl

/- ===================== C4 ===================== -/

/-- C4 counterexample: when the discovery yields no single-select fields,
two sequential resolve calls for the same project both issue a
schema-discovery query — two queries in total, not one. -/
theorem c4_counterexample :
    (get_project_field_and_option_ids false (Except.ok []) [] "PVT_X" "Priority" "High").queried
        = true ∧
    (get_project_field_and_option_ids false (Except.ok [])
        (get_project_field_and_option_ids false (Except.ok []) [] "PVT_X" "Priority" "High").cache
        "PVT_X" "Priority" "Low").queried = true := by
  exact ⟨rfl, rfl⟩

/-- C4 (amended): for a project not yet cached, if the schema discovery
returns at least one single-select field, two sequential resolve calls —
even for different field names or option labels — issue exactly one
discovery query in total: the first call queries and caches the full
per-project field map, and the second call is served from the cache. -/
theorem c4_single_discovery (cache : Cache) (nodes : List FieldNode)
    (p f1 o1 f2 o2 : String)
    (hmiss : lookupCache cache p = none)
    (hne : singleSelectFields nodes ≠ []) :
    (get_project_field_and_option_ids false (Except.ok nodes) cache p f1 o1).queried
        = true ∧
    (get_project_field_and_option_ids false (Except.ok nodes)
        (get_project_field_and_option_ids false (Except.ok nodes) cache p f1 o1).cache
        p f2 o2).queried = false ∧
    (get_project_field_and_option_ids false (Except.ok nodes)
        (get_project_field_and_option_ids false (Except.ok nodes) cache p f1 o1).cache
        p f2 o2).cache =
      (get_project_field_and_option_ids false (Except.ok nodes) cache p f1 o1).cache ∧
    lookupCache (get_project_field_and_option_ids false (Except.ok nodes) cache p f1 o1).cache p
        = some (singleSelectFields nodes) ∧
    (get_project_field_and_option_ids false (Except.ok nodes)
        (get_project_field_and_option_ids false (Except.ok nodes) cache p f1 o1).cache
        p f2 o2).result = lookupFieldOption (singleSelectFields nodes) f2 o2 := by
  have h1 : get_project_field_and_option_ids false (Except.ok nodes) cache p f1 o1 =
      ⟨lookupFieldOption (singleSelectFields nodes) f1 o1,
       insertCache cache p (singleSelectFields nodes), true⟩ := by
    unfold get_project_field_and_option_ids
    rw [hmiss]
    simp [gh_graphql_fields]
  have h2 : lookupCache (insertCache cache p (singleSelectFields nodes)) p =
      some (singleSelectFields nodes) := by
    simp [lookupCache, insertCache]
  obtain ⟨f, fs, hcons⟩ : ∃ f fs, singleSelectFields nodes = f :: fs := by
    cases h : singleSelectFields nodes with
    | nil => exact absurd h hne
    | cons f fs => exact ⟨f, fs, rfl⟩
  have h3 : get_project_field_and_option_ids false (Except.ok nodes)
      (insertCache cache p (singleSelectFields nodes)) p f2 o2 =
      ⟨lookupFieldOption (singleSelectFields nodes) f2 o2,
       insertCache cache p (singleSelectFields nodes), false⟩ := by
    unfold get_project_field_and_option_ids
    rw [h2, hcons]
  rw [h1]
  rw [h3]
  exact ⟨rfl, rfl, rfl, h2, rfl⟩

/-- Witness for C4 (amended): a project with one single-select Priority
field is discovered once; the second resolve call (different field name and
label) is answered from the cache without a second query. -/
theorem c4_witness :
    (get_project_field_and_option_ids false
        (Except.ok [⟨"ProjectV2SingleSelectField", "F1", "Priority", [⟨"O1", "Alta"⟩]⟩])
        [] "PVT_1" "Priority" "Alta").queried = true ∧
    (get_project_field_and_option_ids false
        (Except.ok [⟨"ProjectV2SingleSelectField", "F1", "Priority", [⟨"O1", "Alta"⟩]⟩])
        (get_project_field_and_option_ids false
          (Except.ok [⟨"ProjectV2SingleSelectField", "F1", "Priority", [⟨"O1", "Alta"⟩]⟩])
          [] "PVT_1" "Priority" "Alta").cache
        "PVT_1" "Size" "M").queried = false := by
  have h := c4_single_discovery []
    [⟨"ProjectV2SingleSelectField", "F1", "Priority", [⟨"O1", "Alta"⟩]⟩]
    "PVT_1" "Priority" "Alta" "Size" "M" rfl (by decide)
  exact ⟨h.1, h.2.1⟩

/- ===================== C1 ===================== -/

/-- C1: at-most-once creation — for a record id that already has a row in
the idempotency mapping, `process_validated_page` performs no effect at
all (in particular no work-item or draft-item creation) and leaves the
database and cache unchanged. -/
theorem c1_already_synced_no_creation (c : Config) (ext : Ext) (db : DB)
    (cache : Cache) (page_id : String)
    (h : already_synced db page_id = true) :
    process_validated_page c ext db cache page_id = ⟨db, cache, []⟩ := by
  unfold process_validated_page
  cases hr : ext.retrieve with
  | error u => rfl
  | ok props =>
    cases hf : get_page_fields page_id props with
    | error u => simp [hf]
    | ok data =>
      simp only [hf]
      split_ifs <;> simp_all

/-- Witness for C1: re-processing an id that is already in the mapping is a
complete no-op. -/
theorem c1_witness :
    process_validated_page cfgPlain extBlank [("p1", 5)] [] "p1" =
      ⟨[("p1", 5)], [], []⟩ :=
  c1_already_synced_no_creation cfgPlain extBlank [("p1", 5)] [] "p1" rfl

/- ===================== C2 ===================== -/

/-- C2: every record that reaches the creation branch creates exactly one
of draft item or work item, never both: the trace starts with a draft
creation exactly when the draft flag is set and a project id is configured,
and otherwise with a work-item creation carrying title, composed body and
derived labels; no further creation effect follows in either case. -/
theorem c2_exactly_one_creation (c : Config) (ext : Ext) (db : DB) (cache : Cache)
    (page_id : String) (props : JVal) (data : PageData)
    (hr : ext.retrieve = Except.ok props)
    (hf : get_page_fields page_id props = Except.ok data)
    (hv : (validate_page_data data).1 = true)
    (hs : data.status = some "Validated")
    (hn : already_synced db page_id = false) :
    ((c.create_draft && c.project_id != "") = true →
      ∃ rest, (process_validated_page c ext db cache page_id).trace =
        Effect.createDraft c.project_id data.title
          (compose_body page_id (get_page_content ext.blocks)) :: rest ∧
        ∀ e ∈ rest, e.isCreation = false) ∧
    ((c.create_draft && c.project_id != "") = false →
      ∃ rest, (process_validated_page c ext db cache page_id).trace =
        Effect.createIssue data.title
          (compose_body page_id (get_page_content ext.blocks))
          (_labels_for_issue data.customer_types data.priority data.size) :: rest ∧
        ∀ e ∈ rest, e.isCreation = false) := by
  constructor
  · intro hb
    cases hd : create_draft_item_m c.dry_run ext.createDraftResp with
    | error u =>
      refine ⟨[], ?_, fun e he => absurd he (List.not_mem_nil e)⟩
      simp [process_validated_page, hr, hf, hv, hs, hn, hb, hd]
    | ok item0 =>
      refine ⟨(after_creation c ext db cache page_id data none item0).trace, ?_,
        after_creation_no_creation c ext db cache page_id data none item0⟩
      simp [process_validated_page, hr, hf, hv, hs, hn, hb, hd]
  · intro hb
    cases hd : create_github_issue_m c.dry_run ext.createIssueResp with
    | error u =>
      refine ⟨[], ?_, fun e he => absurd he (List.not_mem_nil e)⟩
      simp [process_validated_page, hr, hf, hv, hs, hn, hb, hd]
    | ok iss =>
      refine ⟨(after_creation c ext db cache page_id data (some iss) none).trace, ?_,
        after_creation_no_creation c ext db cache page_id data (some iss) none⟩
      simp [process_validated_page, hr, hf, hv, hs, hn, hb, hd]

/-- Witness for C2: with no draft flag, processing a validated page emits a
single work-item creation first, and nothing after it is a creation. -/
theorem c2_witness :
    ∃ rest, (process_validated_page cfgPlain extIssueOk [] [] "p1").trace =
      Effect.createIssue "Fix login bug"
        (compose_body "p1" (get_page_content extIssueOk.blocks))
        (_labels_for_issue [] none none) :: rest ∧
      ∀ e ∈ rest, e.isCreation = false :=
  (c2_exactly_one_creation cfgPlain extIssueOk [] [] "p1" propsValidated
    dataValidated rfl rfl rfl rfl rfl).2 rfl

/- ===================== C3 ===================== -/

/-- C3: the idempotency mapping row is written exactly when a tracked work
item was created (issue branch, creation succeeded) and dry-run is off; in
dry-run mode no row is ever written and the database is untouched; and in
the successful non-dry-run issue path the row is written immediately after
the creation, before the mark-synced and status-to-Backlog write-backs and
before all project-propagation effects, none of which writes the mapping. -/
theorem c3_mapping_written_iff (c : Config) (ext : Ext) (db : DB) (cache : Cache)
    (page_id : String) :
    (c.dry_run = true →
      (process_validated_page c ext db cache page_id).db = db ∧
      ∀ p n, Effect.recordMapping p n ∉
        (process_validated_page c ext db cache page_id).trace) ∧
    (∀ p n, Effect.recordMapping p n ∈
        (process_validated_page c ext db cache page_id).trace →
      p = page_id ∧ c.dry_run = false ∧
      (c.create_draft && c.project_id != "") = false ∧
      ∃ iss, create_github_issue_m c.dry_run ext.createIssueResp = Except.ok iss ∧
        n = iss.number) ∧
    (∀ (props : JVal) (data : PageData) (iss : Issue),
      ext.retrieve = Except.ok props →
      get_page_fields page_id props = Except.ok data →
      (validate_page_data data).1 = true →
      data.status = some "Validated" →
      already_synced db page_id = false →
      (c.create_draft && c.project_id != "") = false →
      c.dry_run = false →
      ext.createIssueResp = Except.ok iss →
      (process_validated_page c ext db cache page_id).trace =
        Effect.createIssue data.title
            (compose_body page_id (get_page_content ext.blocks))
            (_labels_for_issue data.customer_types data.priority data.size) ::
          Effect.recordMapping page_id iss.number ::
          Effect.markSynced page_id ::
          Effect.setStatusBacklog page_id ::
          (project_steps c ext cache data (some iss) none).1 ∧
      (process_validated_page c ext db cache page_id).db =
        record_mapping db page_id iss.number ∧
      ∀ e ∈ (project_steps c ext cache data (some iss) none).1,
        e.isMapWrite = false) := by
  have part2 : ∀ p n, Effect.recordMapping p n ∈
      (process_validated_page c ext db cache page_id).trace →
      p = page_id ∧ c.dry_run = false ∧
      (c.create_draft && c.project_id != "") = false ∧
      ∃ iss, create_github_issue_m c.dry_run ext.createIssueResp = Except.ok iss ∧
        n = iss.number := by
    intro p n hmem
    unfold process_validated_page at hmem
    cases hr : ext.retrieve with
    | error u => rw [hr] at hmem; simp at hmem
    | ok props =>
      rw [hr] at hmem
      simp only [] at hmem
      cases hg : get_page_fields page_id props with
      | error u => rw [hg] at hmem; simp at hmem
      | ok data =>
        rw [hg] at hmem
        simp only [] at hmem
        by_cases hval : (!(validate_page_data data).1) = true
        · rw [if_pos hval] at hmem; simp at hmem
        · rw [if_neg hval] at hmem
          by_cases hst : (data.status != some "Validated") = true
          · rw [if_pos hst] at hmem; simp at hmem
          · rw [if_neg hst] at hmem
            by_cases hsy : already_synced db page_id = true
            · rw [if_pos hsy] at hmem; simp at hmem
            · rw [if_neg hsy] at hmem
              by_cases hb : (c.create_draft && c.project_id != "") = true
              · rw [if_pos hb] at hmem
                cases hd : create_draft_item_m c.dry_run ext.createDraftResp with
                | error u => rw [hd] at hmem; simp at hmem
                | ok item0 =>
                  rw [hd] at hmem
                  simp [after_creation, mapping_step] at hmem
                  have hcontra := project_steps_no_map c ext cache data none item0 _ hmem
                  simp [Effect.isMapWrite] at hcontra
              · rw [if_neg hb] at hmem
                have hbf : (c.create_draft && c.project_id != "") = false := by
                  revert hb
                  cases (c.create_draft && c.project_id != "") <;> simp
                cases hi : create_github_issue_m c.dry_run ext.createIssueResp with
                | error u => rw [hi] at hmem; simp at hmem
                | ok iss =>
                  rw [hi] at hmem
                  cases hdry : c.dry_run with
                  | true =>
                    simp [after_creation, mapping_step, hdry] at hmem
                    have hcontra :=
                      project_steps_no_map c ext cache data (some iss) none _ hmem
                    simp [Effect.isMapWrite] at hcontra
                  | false =>
                    simp [after_creation, mapping_step, hdry] at hmem
                    rcases hmem with ⟨hp, hn2⟩ | hproj
                    · exact ⟨hp, rfl, hbf, iss, rfl, hn2⟩
                    · have hcontra :=
                        project_steps_no_map c ext cache data (some iss) none _ hproj
                      simp [Effect.isMapWrite] at hcontra
  have part1db : c.dry_run = true →
      (process_validated_page c ext db cache page_id).db = db := by
    intro hdry
    unfold process_validated_page
    cases hr : ext.retrieve with
    | error u => rfl
    | ok props =>
      cases hg : get_page_fields page_id props with
      | error u => simp [hg]
      | ok data =>
        simp only [hg]
        split_ifs with h1 h2 h3 h4
        · rfl
        · rfl
        · rfl
        · cases hd : create_draft_item_m c.dry_run ext.createDraftResp with
          | error u => rfl
          | ok item0 => simp [after_creation, mapping_step]
        · cases hi : create_github_issue_m c.dry_run ext.createIssueResp with
          | error u => rfl
          | ok iss => simp [after_creation, mapping_step, hdry]
  have part3 : ∀ (props : JVal) (data : PageData) (iss : Issue),
      ext.retrieve = Except.ok props →
      get_page_fields page_id props = Except.ok data →
      (validate_page_data data).1 = true →
      data.status = some "Validated" →
      already_synced db page_id = false →
      (c.create_draft && c.project_id != "") = false →
      c.dry_run = false →
      ext.createIssueResp = Except.ok iss →
      (process_validated_page c ext db cache page_id).trace =
        Effect.createIssue data.title
            (compose_body page_id (get_page_content ext.blocks))
            (_labels_for_issue data.customer_types data.priority data.size) ::
          Effect.recordMapping page_id iss.number ::
          Effect.markSynced page_id ::
          Effect.setStatusBacklog page_id ::
          (project_steps c ext cache data (some iss) none).1 ∧
      (process_validated_page c ext db cache page_id).db =
        record_mapping db page_id iss.number ∧
      ∀ e ∈ (project_steps c ext cache data (some iss) none).1,
        e.isMapWrite = false := by
    intro props data iss hr hf hv hs hn hb hdry hresp
    have hi : create_github_issue_m false ext.createIssueResp = Except.ok iss := by
      simp [create_github_issue_m, hresp]
    refine ⟨?_, ?_, project_steps_no_map c ext cache data (some iss) none⟩
    · simp [process_validated_page, hr, hf, hv, hs, hn, hb, hi,
        after_creation, mapping_step, hdry]
    · simp [process_validated_page, hr, hf, hv, hs, hn, hb, hi,
        after_creation, mapping_step, hdry]
  refine ⟨?_, part2, part3⟩
  intro hdry
  refine ⟨part1db hdry, ?_⟩
  intro p n hmem
  exact absurd (part2 p n hmem).2.1 (by simp [hdry])

/-- Witness for C3: in the concrete successful non-dry-run issue run, the
mapping row is recorded immediately after the creation and before the
write-back and project steps, and the database gains exactly that row. -/
theorem c3_witness :
    (process_validated_page cfgPlain extIssueOk [] [] "p1").trace =
      Effect.createIssue "Fix login bug"
          (compose_body "p1" (get_page_content extIssueOk.blocks))
          (_labels_for_issue [] none none) ::
        Effect.recordMapping "p1" 7 ::
        Effect.markSynced "p1" ::
        Effect.setStatusBacklog "p1" ::
        (project_steps cfgPlain extIssueOk [] dataValidated (some ⟨7, some "N1"⟩) none).1 ∧
    (process_validated_page cfgPlain extIssueOk [] [] "p1").db =
      record_mapping [] "p1" 7 :=
  ⟨((c3_mapping_written_iff cfgPlain extIssueOk [] [] "p1").2.2 propsValidated
      dataValidated ⟨7, some "N1"⟩ rfl rfl rfl rfl rfl rfl rfl rfl).1,
   ((c3_mapping_written_iff cfgPlain extIssueOk [] [] "p1").2.2 propsValidated
      dataValidated ⟨7, some "N1"⟩ rfl rfl rfl rfl rfl rfl rfl rfl).2.1⟩

end NotionGithubSync
